import Mathlib

/-!
Shallow embedding of the retrieval-augmented-generation demo
(`RAG_Application_Demo.py`): document preparation, index construction over an
embedding matrix, nearest-neighbor querying, the chat prompt construction, and
the Streamlit submit handler with its session state.

External collaborators (the Azure embedding client, the chat-completion client,
and the Excel reader) are modelled as function parameters returning
`Except String`; a raised exception corresponds to `Except.error`.  The
scikit-learn `NearestNeighbors` brute-force search with the cosine metric is
modelled by computing the distance from the query to every fitted row,
ordering indices by ascending distance (ties by ascending index) and taking
the first `k`; the cosine distance itself is kept as an abstract rational
valued `metric` parameter, since none of the verified properties depend on
the particular metric.  Every external call performed by the pipeline is
recorded in an `ApiCall` trace so that claims about which calls happen (or do
not happen) can be stated.
-/

/-- Model of a pandas `DataFrame`: named columns, and rectangular rows holding
one cell per column in column order.  Cell values are kept in their string
representation (Python `str`), since the code only ever formats them into
f-strings. -/
structure DataFrame where
  columns : List String
  rows : List (List String)
deriving DecidableEq

/-- `prepare_documents` (source lines 33-40): for each row of the frame, emit
the fragment `"<column>: <value>"` for every column in the frame's column
order (`row[col]` is the cell in that column, i.e. positionally aligned under
the rectangular model) and join the fragments with the delimiter `" | "`. -/
def prepare_documents (df : DataFrame) : List String :=
  df.rows.map (fun row =>
    String.intercalate " | "
      (List.zipWith (fun col v => col ++ ": " ++ v) df.columns row))

/-- One recorded call to an external collaborator: an embedding request, a
`kneighbors` lookup on the fitted index, or a chat completion with its
message list and sampling temperature. -/
inductive ApiCall where
  | embed (text : String)
  | knn (k : ℕ)
  | chat (messages : List (String × String)) (temperature : ℚ)
deriving DecidableEq

/-- The index bundle returned by `build_nn_index` (source line 47):
the fitted `NearestNeighbors` structure (here: its fit-time `n_neighbors`
constructor argument together with the fitted matrix) plus the embedding
matrix `X` and the documents. -/
structure IndexBundle where
  fitK : ℕ
  X : List (List ℚ)
  documents : List String
deriving DecidableEq

/-- Ordering on `(index, distance)` pairs used by the neighbor search:
ascending distance, exact ties broken by ascending index. -/
def nnLE (a b : ℕ × ℚ) : Prop :=
  a.2 < b.2 ∨ (a.2 = b.2 ∧ a.1 ≤ b.1)

instance : DecidableRel nnLE := fun a b =>
  inferInstanceAs (Decidable (a.2 < b.2 ∨ (a.2 = b.2 ∧ a.1 ≤ b.1)))

instance : IsTotal (ℕ × ℚ) nnLE :=
  ⟨fun a b => by
    rcases lt_trichotomy a.2 b.2 with h | h | h
    · exact Or.inl (Or.inl h)
    · rcases Nat.le_total a.1 b.1 with h2 | h2
      · exact Or.inl (Or.inr ⟨h, h2⟩)
      · exact Or.inr (Or.inr ⟨h.symm, h2⟩)
    · exact Or.inr (Or.inl h)⟩

instance : IsTrans (ℕ × ℚ) nnLE :=
  ⟨fun a b c hab hbc => by
    rcases hab with h1 | ⟨h1, h1'⟩ <;> rcases hbc with h2 | ⟨h2, h2'⟩
    · exact Or.inl (h1.trans h2)
    · exact Or.inl (lt_of_lt_of_eq h1 h2)
    · exact Or.inl (lt_of_eq_of_lt h1 h2)
    · exact Or.inr ⟨h1.trans h2, h1'.trans h2'⟩⟩

/-- Model of `nn.kneighbors(q, n_neighbors=k)` for a brute-force index fitted
on the rows of `X` (source line 51): compute the distance from the query to
every fitted row, order the row indices by ascending distance, and return the
first `k` distances and indices.  scikit-learn raises when `k` is zero or
exceeds the number of fitted samples. -/
def kneighbors (metric : List ℚ → List ℚ → ℚ) (X : List (List ℚ))
    (q : List ℚ) (k : ℕ) : Except String (List ℚ × List ℕ) :=
  if k = 0 then
    .error "Expected n_neighbors > 0"
  else if X.length < k then
    .error "Expected n_neighbors <= n_samples_fit"
  else
    .ok (((List.insertionSort nnLE (X.map (metric q)).enum).take k).map Prod.snd,
         ((List.insertionSort nnLE (X.map (metric q)).enum).take k).map Prod.fst)

/-- The list comprehension `[get_embedding(doc) for doc in documents]`
(source line 43), instrumented with the trace of embedding calls: documents
are embedded in order, and the first failing call aborts the whole
comprehension (no retry, no isolation). -/
def embedAll (emb : String → Except String (List ℚ)) :
    List String → List ApiCall × Except String (List (List ℚ))
  | [] => ([], .ok [])
  | d :: ds =>
    match emb d with
    | .error e => ([.embed d], .error e)
    | .ok v =>
      let r := embedAll emb ds
      (.embed d :: r.1, r.2.map (fun X => v :: X))

/-- `build_nn_index` (source lines 42-47): embed every document in order,
stack the vectors into the matrix `X`, and fit
`NearestNeighbors(n_neighbors=5, metric="cosine")` on it, returning
`(nn, X, documents)` together with the trace of embedding calls made.
`nn.fit` raises a `ValueError` when the stacked array holds no samples, so
the build fails on an empty document list. -/
def build_nn_index (emb : String → Except String (List ℚ))
    (documents : List String) :
    List ApiCall × Except String IndexBundle :=
  let r := embedAll emb documents
  (r.1,
   match r.2 with
   | .error e => .error e
   | .ok X =>
     if X.length = 0 then
       .error "Found array with 0 sample(s) while a minimum of 1 is required"
     else .ok ⟨5, X, documents⟩)

/-- The fixed system instruction of the chat prompt (source line 59). -/
def system_msg : String :=
  "You are a helpful assistant. Always answer using only the data provided. Pay close attention to all columns (ProcessName, Owner, Step, Tool, etc."

/-- `query_rag` (source lines 49-64), instrumented with the trace of external
calls: embed the question; look up the `top_k` nearest fitted rows; fetch the
corresponding documents in the order the neighbor search returned them; join
them with newlines into the context block; send the fixed system instruction
plus the single user message `"Data:\n<context>\n\nQuestion: <question>"` to
the chat client with temperature 0; return the chat client's text unchanged.
In the application the lists `b.X` and `b.documents` have equal length, so
the returned indices are always in range for `b.documents`. -/
def query_rag (emb : String → Except String (List ℚ))
    (chatc : List (String × String) → ℚ → Except String String)
    (metric : List ℚ → List ℚ → ℚ)
    (question : String) (b : IndexBundle) (top_k : ℕ) :
    List ApiCall × Except String String :=
  match emb question with
  | .error e => ([.embed question], .error e)
  | .ok q =>
    match kneighbors metric b.X q top_k with
    | .error e => ([.embed question, .knn top_k], .error e)
    | .ok (_, idxs) =>
      let retrieved := idxs.map (fun i => b.documents.getD i "")
      let context := String.intercalate "\n" retrieved
      let msgs := [("system", system_msg),
                   ("user", "Data:\n" ++ context ++ "\n\nQuestion: " ++ question)]
      ([.embed question, .knn top_k, .chat msgs 0], chatc msgs 0)

/-- The session state visible to the submit handler: the conversation history
(`st.session_state.history`, a list of `(role, message)` pairs), and the
`data_loaded` flag and cached index bundle produced by
`load_and_index_data`. -/
structure AppState where
  history : List (String × String)
  data_loaded : Bool
  bundle : Option IndexBundle
deriving DecidableEq

/-- `load_and_index_data` (source lines 538-546): read the Excel file,
prepare the documents, build the index; any exception anywhere in the body
yields `(None, None, None, False, 0)`.  Returns the bundle (if any), the
`data_loaded` flag, and the record count. -/
def load_and_index_data (read_excel : Except String DataFrame)
    (emb : String → Except String (List ℚ)) :
    Option IndexBundle × Bool × ℕ :=
  match read_excel with
  | .error _ => (none, false, 0)
  | .ok df =>
    match (build_nn_index emb (prepare_documents df)).2 with
    | .error _ => (none, false, 0)
    | .ok b => (some b, true, df.rows.length)

/-- The application state right after startup: empty history, and the
`data_loaded` flag and bundle from `load_and_index_data`. -/
def load_state (read_excel : Except String DataFrame)
    (emb : String → Except String (List ℚ)) : AppState :=
  let r := load_and_index_data read_excel emb
  ⟨[], r.2.1, r.1⟩

/-- The banner shown when a query is submitted while data is not loaded
(source line 631). -/
def dataNotLoadedMsg : String :=
  "⚠️ Data not loaded. Please check the Excel file path."

/-- The fixed head of the inline error answer appended when a query raises
(source line 627). -/
def errHead : String :=
  "I apologize, but I encountered an error: "

/-- The submit handler (source lines 618-631): when the form was submitted
with a non-empty input and data is loaded, append the user turn, run
`query_rag` with the default `top_k = 5`, and append the bot turn (the answer
on success, the inline error answer on exception); when data is not loaded
show the error banner instead.  Returns the new state, the trace of external
calls made, and the banner if one was shown.  (When `data_loaded` is true the
application always holds a bundle; the `none` branch is unreachable.) -/
def process_query (emb : String → Except String (List ℚ))
    (chatc : List (String × String) → ℚ → Except String String)
    (metric : List ℚ → List ℚ → ℚ)
    (st : AppState) (submit : Bool) (user_input : String) :
    AppState × List ApiCall × Option String :=
  if submit = true ∧ user_input ≠ "" then
    if st.data_loaded = true then
      match st.bundle with
      | some b =>
        match query_rag emb chatc metric user_input b 5 with
        | (calls, .ok ans) =>
          ({ st with history := st.history ++ [("user", user_input), ("bot", ans)] },
           calls, none)
        | (calls, .error e) =>
          ({ st with history := st.history ++ [("user", user_input), ("bot", errHead ++ e)] },
           calls, none)
      | none => (st, [], none)
    else (st, [], some dataNotLoadedMsg)
  else (st, [], none)

/-- The "New Session" button (source lines 487-489): reset the conversation
history to the empty list; the cached index is untouched. -/
def new_session (st : AppState) : AppState :=
  { st with history := [] }

/-- The sidebar "Queries" metric (source line 448):
`len(st.session_state.get('history', [])) // 2`. -/
def queries_metric (st : AppState) : ℕ :=
  st.history.length / 2

/-- Well-formedness of the conversation history: an alternating sequence of
`("user", _)` / `("bot", _)` pairs, hence of even length. -/
def alternating : List (String × String) → Bool
  | [] => true
  | (r1, _) :: (r2, _) :: t => r1 == "user" && r2 == "bot" && alternating t
  | _ :: [] => false


/-! ### Concrete instances used to evaluate the development -/

/-- The two-row example frame from the design scenario. -/
def dfEx : DataFrame :=
  ⟨["Step", "Owner"], [["Grill", "Alice"], ["Fry", "Bob"]]⟩

/-- An embedding client that succeeds on every input with the vector `[0]`. -/
def embZero : String → Except String (List ℚ) := fun _ => .ok [0]

/-- An embedding client that always raises. -/
def embFail : String → Except String (List ℚ) := fun _ => .error "boom"

/-- A chat client that always answers with the fixed text `"ANSWER"`. -/
def chatOK : List (String × String) → ℚ → Except String String :=
  fun _ _ => .ok "ANSWER"

/-- The constant-zero distance function. -/
def mZero : List ℚ → List ℚ → ℚ := fun _ _ => 0

/-- A distance function returning the head entry of the candidate vector. -/
def mHead : List ℚ → List ℚ → ℚ := fun _ v => v.headD 0

/-- Six document names. -/
def docs6 : List String := ["d0", "d1", "d2", "d3", "d4", "d5"]

/-- A one-document index bundle. -/
def bOne : IndexBundle := ⟨5, [[0]], ["doc0"]⟩

/-- A two-document index bundle (fewer than five fitted samples). -/
def bTwo : IndexBundle := ⟨5, [[0], [0]], ["da", "db"]⟩

/-- A five-document index bundle. -/
def bFive : IndexBundle :=
  ⟨5, [[0], [0], [0], [0], [0]], ["e0", "e1", "e2", "e3", "e4"]⟩

/-- A loaded state with one past exchange and the five-document bundle. -/
def stEx : AppState :=
  ⟨[("user", "old"), ("bot", "oldans")], true, some bFive⟩

/-- A loaded state with empty history over the two-document bundle. -/
def stTwo : AppState := ⟨[], true, some bTwo⟩

/-! ### Helper lemmas -/

/-- Specification of a successful `kneighbors` call: when `0 < k ≤ |X|` the
call succeeds and returns `k` pairwise-distinct row indices, all in range,
with the distances non-decreasing in the returned order. -/
theorem kneighbors_ok_spec (metric : List ℚ → List ℚ → ℚ) (X : List (List ℚ))
    (q : List ℚ) (k : ℕ) (hk : k ≠ 0) (hkN : k ≤ X.length) :
    ∃ ds idxs, kneighbors metric X q k = .ok (ds, idxs) ∧
      idxs.length = k ∧ ds.length = k ∧ idxs.Nodup ∧
      (∀ i ∈ idxs, i < X.length) ∧ List.Pairwise (fun a b : ℚ => a ≤ b) ds := by
  have hlen : (List.insertionSort nnLE (X.map (metric q)).enum).length = X.length := by
    rw [List.length_insertionSort, List.enum_length, List.length_map]
  have hperm := List.perm_insertionSort nnLE (X.map (metric q)).enum
  have hfst :
      List.Perm ((List.insertionSort nnLE (X.map (metric q)).enum).map Prod.fst)
        (List.range X.length) := by
    have h2 := hperm.map Prod.fst
    rwa [List.enum_map_fst, List.length_map] at h2
  have hnodup : ((List.insertionSort nnLE (X.map (metric q)).enum).map Prod.fst).Nodup :=
    hfst.nodup_iff.mpr (List.nodup_range _)
  have hsorted : List.Sorted nnLE (List.insertionSort nnLE (X.map (metric q)).enum) :=
    List.sorted_insertionSort nnLE _
  refine ⟨((List.insertionSort nnLE (X.map (metric q)).enum).take k).map Prod.snd,
    ((List.insertionSort nnLE (X.map (metric q)).enum).take k).map Prod.fst,
    ?_, ?_, ?_, ?_, ?_, ?_⟩
  · unfold kneighbors
    rw [if_neg hk, if_neg (not_lt.mpr hkN)]
  · rw [List.length_map, List.length_take, hlen]
    exact min_eq_left hkN
  · rw [List.length_map, List.length_take, hlen]
    exact min_eq_left hkN
  · rw [List.map_take]
    exact List.Nodup.sublist (List.take_sublist _ _) hnodup
  · intro i hi
    rw [List.map_take] at hi
    have hmem : i ∈ (List.insertionSort nnLE (X.map (metric q)).enum).map Prod.fst :=
      (List.take_sublist _ _).subset hi
    exact List.mem_range.mp (hfst.mem_iff.mp hmem)
  · have hp : List.Pairwise nnLE
        ((List.insertionSort nnLE (X.map (metric q)).enum).take k) :=
      List.Pairwise.sublist (List.take_sublist _ _) hsorted
    refine List.pairwise_map.mpr (hp.imp ?_)
    intro a b hab
    rcases hab with h | h
    · exact le_of_lt h
    · exact le_of_eq h.1

/-- A `kneighbors` call requesting more neighbors than there are fitted
samples fails. -/
theorem kneighbors_too_many (metric : List ℚ → List ℚ → ℚ) (X : List (List ℚ))
    (q : List ℚ) (k : ℕ) (hk : k ≠ 0) (hlt : X.length < k) :
    kneighbors metric X q k = .error "Expected n_neighbors <= n_samples_fit" := by
  unfold kneighbors
  rw [if_neg hk, if_pos hlt]

/-- When the embedding client succeeds on every document, `embedAll` makes
exactly one embedding call per document in document order and returns the
embeddings stacked in that order. -/
theorem embedAll_ok (emb : String → Except String (List ℚ)) :
    ∀ documents : List String, (∀ d ∈ documents, ∃ v, emb d = .ok v) →
      (embedAll emb documents).1 = documents.map ApiCall.embed ∧
      ∃ X, (embedAll emb documents).2 = .ok X ∧ X.length = documents.length ∧
        ∀ i, i < documents.length → emb (documents.getD i "") = .ok (X.getD i [])
  | [], _ => ⟨rfl, [], rfl, rfl, fun i hi => absurd hi (by simp)⟩
  | d :: ds, h => by
    obtain ⟨v, hv⟩ := h d (by simp)
    obtain ⟨ih1, X, hX, hlen, hget⟩ :=
      embedAll_ok emb ds (fun d' hd' => h d' (by simp [hd']))
    refine ⟨?_, v :: X, ?_, ?_, ?_⟩
    · simp [embedAll, hv, ih1]
    · simp [embedAll, hv, hX, Except.map]
    · simp [hlen]
    · intro i hi
      cases i with
      | zero => simpa using hv
      | succ n => simpa using hget n (by simpa using hi)

/-- If the embedding client fails on some document of the list, `embedAll`
fails as a whole. -/
theorem embedAll_err (emb : String → Except String (List ℚ)) :
    ∀ documents : List String, (∃ d ∈ documents, ∃ e, emb d = .error e) →
      ∃ e, (embedAll emb documents).2 = .error e
  | [], h => absurd h (by simp)
  | d :: ds, h => by
    cases hd : emb d with
    | error e => exact ⟨e, by simp [embedAll, hd]⟩
    | ok v =>
      obtain ⟨d', hd', e', he'⟩ := h
      rcases List.mem_cons.mp hd' with rfl | hmem
      · rw [hd] at he'
        cases he'
      · obtain ⟨e, he⟩ := embedAll_err emb ds ⟨d', hmem, e', he'⟩
        exact ⟨e, by simp [embedAll, hd, he, Except.map]⟩

/-- Inversion of a successful `build_nn_index`: the structure was fitted with
the constant `n_neighbors = 5`, the documents are stored unchanged, and the
fitted matrix is non-empty (otherwise `nn.fit` would have raised). -/
theorem build_nn_index_ok_inv (emb : String → Except String (List ℚ))
    (documents : List String) (b : IndexBundle)
    (hb : (build_nn_index emb documents).2 = .ok b) :
    b.fitK = 5 ∧ b.documents = documents ∧ b.X.length ≠ 0 := by
  simp only [build_nn_index] at hb
  cases hX : (embedAll emb documents).2 with
  | error e => rw [hX] at hb; simp at hb
  | ok X =>
    rw [hX] at hb
    by_cases h0 : X.length = 0
    · simp [h0] at hb
    · simp [h0] at hb
      rw [← hb]
      exact ⟨rfl, rfl, h0⟩

/-- When data is loaded and the pipeline answers, the submit handler appends
exactly the user turn and the bot answer. -/
theorem process_query_ok (emb : String → Except String (List ℚ))
    (chatc : List (String × String) → ℚ → Except String String)
    (metric : List ℚ → List ℚ → ℚ) (st : AppState) (b : IndexBundle)
    (input ans : String)
    (hl : st.data_loaded = true) (hb : st.bundle = some b) (hne : input ≠ "")
    (h : (query_rag emb chatc metric input b 5).2 = .ok ans) :
    process_query emb chatc metric st true input =
      ({ st with history := st.history ++ [("user", input), ("bot", ans)] },
       (query_rag emb chatc metric input b 5).1, none) := by
  rcases hq : query_rag emb chatc metric input b 5 with ⟨calls, r2⟩
  rw [hq] at h
  simp only at h
  subst h
  simp [process_query, hl, hb, hq, hne]

/-- When data is loaded and the pipeline raises, the submit handler appends
the user turn and the inline error answer. -/
theorem process_query_err (emb : String → Except String (List ℚ))
    (chatc : List (String × String) → ℚ → Except String String)
    (metric : List ℚ → List ℚ → ℚ) (st : AppState) (b : IndexBundle)
    (input e : String)
    (hl : st.data_loaded = true) (hb : st.bundle = some b) (hne : input ≠ "")
    (h : (query_rag emb chatc metric input b 5).2 = .error e) :
    process_query emb chatc metric st true input =
      ({ st with history := st.history ++ [("user", input), ("bot", errHead ++ e)] },
       (query_rag emb chatc metric input b 5).1, none) := by
  rcases hq : query_rag emb chatc metric input b 5 with ⟨calls, r2⟩
  rw [hq] at h
  simp only at h
  subst h
  simp [process_query, hl, hb, hq, hne]

/-- When data is not loaded, a submitted non-empty question only shows the
banner: no state change and no external call. -/
theorem process_query_notloaded (emb : String → Except String (List ℚ))
    (chatc : List (String × String) → ℚ → Except String String)
    (metric : List ℚ → List ℚ → ℚ) (st : AppState)
    (submit : Bool) (input : String)
    (hl : st.data_loaded = false) :
    process_query emb chatc metric st submit input =
      (st, [], if submit = true ∧ input ≠ "" then some dataNotLoadedMsg else none) := by
  by_cases hc : submit = true ∧ input ≠ ""
  · simp [process_query, hc, hl]
  · simp [process_query, hc]

/-- Appending a `("user", _)`/`("bot", _)` pair preserves alternation of the
conversation history. -/
theorem alternating_append :
    ∀ (h : List (String × String)) (a b : String), alternating h = true →
      alternating (h ++ [("user", a), ("bot", b)]) = true
  | [], a, b, _ => by simp [alternating]
  | [x], a, b, hh => by simp [alternating] at hh
  | (r1, m1) :: (r2, m2) :: t, a, b, hh => by
    simp only [alternating, Bool.and_eq_true, beq_iff_eq] at hh
    simp only [List.cons_append, alternating, Bool.and_eq_true, beq_iff_eq]
    exact ⟨hh.1, alternating_append t a b hh.2⟩

/-! ### Claims -/

/-- C1: for every frame, `prepare_documents` returns exactly one document per
row, in row order; the document at position `i` is obtained from row `i` by
emitting `"<column>: <value>"` for each column in the frame's fixed column
order and joining the fragments with `" | "`; an empty frame yields the empty
list and no error. -/
theorem C1_prepare_documents_per_row (df : DataFrame) :
    (prepare_documents df).length = df.rows.length ∧
    (∀ i, i < df.rows.length →
      (prepare_documents df).getD i "" =
        String.intercalate " | "
          (List.zipWith (fun col v => col ++ ": " ++ v) df.columns (df.rows.getD i []))) ∧
    (df.rows = [] → prepare_documents df = []) := by
  refine ⟨List.length_map _ _, fun i hi => ?_, fun h => by simp [prepare_documents, h]⟩
  rw [prepare_documents, List.getD_eq_getElem?_getD, List.getElem?_map,
    List.getElem?_eq_getElem hi]
  simp [List.getD_eq_getElem?_getD, List.getElem?_eq_getElem hi]

/-- Witness for C1 on the two-row example frame. -/
theorem C1_witness :
    (prepare_documents dfEx).length = 2 ∧
    (prepare_documents dfEx).getD 0 "" = "Step: Grill | Owner: Alice" := by
  refine ⟨(C1_prepare_documents_per_row dfEx).1, ?_⟩
  rw [(C1_prepare_documents_per_row dfEx).2.1 0 (by decide)]
  rfl

/-- C2: a `kneighbors` call with `n_neighbors = k` on an index fitted over
`N` samples, for `0 < k ≤ N`, returns exactly `k` pairwise-distinct document
indices, each in `[0, N)`, with the associated distances non-decreasing in
the returned order. -/
theorem C2_kneighbors_topk (metric : List ℚ → List ℚ → ℚ) (X : List (List ℚ))
    (q : List ℚ) (k : ℕ) (hk : k ≠ 0) (hkN : k ≤ X.length) :
    ∃ ds idxs, kneighbors metric X q k = .ok (ds, idxs) ∧
      idxs.length = k ∧ ds.length = k ∧ idxs.Nodup ∧
      (∀ i ∈ idxs, i < X.length) ∧ List.Pairwise (fun a b : ℚ => a ≤ b) ds :=
  kneighbors_ok_spec metric X q k hk hkN

/-- Witness for C2: a three-sample index queried with `k = 2`. -/
theorem C2_witness :
    (2 : ℕ) ≠ 0 ∧ (2 : ℕ) ≤ ([[3], [1], [2]] : List (List ℚ)).length ∧
    (∃ ds idxs, kneighbors mHead [[3], [1], [2]] [] 2 = .ok (ds, idxs) ∧
      idxs.length = 2 ∧ ds.length = 2 ∧ idxs.Nodup ∧
      (∀ i ∈ idxs, i < ([[3], [1], [2]] : List (List ℚ)).length) ∧
      List.Pairwise (fun a b : ℚ => a ≤ b) ds) :=
  ⟨by decide, by decide, C2_kneighbors_topk mHead [[3], [1], [2]] [] 2 (by decide) (by decide)⟩

/-- C3 (counterexample to the claim as stated): the index is fitted with the
constant `n_neighbors = 5`, yet a query explicitly requesting 6 neighbors on
an index of 6 documents neither fails nor is clamped at 5: it succeeds and
returns 6 indices. -/
theorem C3_counterexample :
    (build_nn_index embZero docs6).2 =
      .ok ⟨5, [[0], [0], [0], [0], [0], [0]], docs6⟩ ∧
    kneighbors mZero [[0], [0], [0], [0], [0], [0]] [] 6 =
      .ok ([0, 0, 0, 0, 0, 0], [0, 1, 2, 3, 4, 5]) ∧
    5 < ([0, 1, 2, 3, 4, 5] : List ℕ).length := by
  refine ⟨?_, ?_, by decide⟩
  · rfl
  · rfl

/-- C3 (amended): the `n_neighbors = 5` fixed when the index is built is only
the default query size, not a maximum: a query explicitly requesting `k`
neighbors succeeds with exactly `k` results whenever `0 < k ≤` the number of
indexed samples — including `k > 5` — and fails (only) when `k` exceeds the
number of indexed samples. -/
theorem C3_fit_neighbors_default_not_cap
    (emb : String → Except String (List ℚ)) (documents : List String)
    (b : IndexBundle) (metric : List ℚ → List ℚ → ℚ) (q : List ℚ) (k : ℕ)
    (hb : (build_nn_index emb documents).2 = .ok b) (hk : k ≠ 0) :
    b.fitK = 5 ∧
    (k ≤ b.X.length →
      ∃ ds idxs, kneighbors metric b.X q k = .ok (ds, idxs) ∧ idxs.length = k) ∧
    (b.X.length < k → ∃ e, kneighbors metric b.X q k = .error e) := by
  refine ⟨(build_nn_index_ok_inv emb documents b hb).1, fun hle => ?_,
    fun hlt => ⟨_, kneighbors_too_many metric b.X q k hk hlt⟩⟩
  obtain ⟨ds, idxs, h1, h2, _⟩ := kneighbors_ok_spec metric b.X q k hk hle
  exact ⟨ds, idxs, h1, h2⟩

/-- Witness for the amended C3: six documents, an explicit query for six
neighbors. -/
theorem C3_witness :
    (IndexBundle.mk 5 [[0], [0], [0], [0], [0], [0]] docs6).fitK = 5 ∧
    (6 ≤ (IndexBundle.mk 5 [[0], [0], [0], [0], [0], [0]] docs6).X.length →
      ∃ ds idxs,
        kneighbors mZero (IndexBundle.mk 5 [[0], [0], [0], [0], [0], [0]] docs6).X [] 6 =
          .ok (ds, idxs) ∧ idxs.length = 6) ∧
    ((IndexBundle.mk 5 [[0], [0], [0], [0], [0], [0]] docs6).X.length < 6 →
      ∃ e, kneighbors mZero (IndexBundle.mk 5 [[0], [0], [0], [0], [0], [0]] docs6).X [] 6 =
        .error e) :=
  C3_fit_neighbors_default_not_cap embZero docs6
    ⟨5, [[0], [0], [0], [0], [0], [0]], docs6⟩ mZero [] 6 (by rfl) (by decide)

/-- C4: every successful `query_rag` call joins the retrieved documents with
newlines in the order the neighbor search returned them, sends exactly two
messages (the fixed system instruction and one user message holding the
context block followed by the literal question) to the chat client with
temperature 0, and returns the chat client's text unmodified. -/
theorem C4_query_rag_prompt (emb : String → Except String (List ℚ))
    (chatc : List (String × String) → ℚ → Except String String)
    (metric : List ℚ → List ℚ → ℚ) (question : String)
    (b : IndexBundle) (top_k : ℕ) (ans : String)
    (h : (query_rag emb chatc metric question b top_k).2 = .ok ans) :
    ∃ qv ds idxs, emb question = .ok qv ∧
      kneighbors metric b.X qv top_k = .ok (ds, idxs) ∧
      chatc [("system", system_msg),
             ("user", "Data:\n" ++
               String.intercalate "\n" (idxs.map (fun i => b.documents.getD i "")) ++
               "\n\nQuestion: " ++ question)] 0 = .ok ans ∧
      (query_rag emb chatc metric question b top_k).1 =
        [.embed question, .knn top_k,
         .chat [("system", system_msg),
                ("user", "Data:\n" ++
                  String.intercalate "\n" (idxs.map (fun i => b.documents.getD i "")) ++
                  "\n\nQuestion: " ++ question)] 0] := by
  cases hq : emb question with
  | error e => simp [query_rag, hq] at h
  | ok qv =>
    cases hkq : kneighbors metric b.X qv top_k with
    | error e => simp [query_rag, hq, hkq] at h
    | ok p =>
      obtain ⟨ds, idxs⟩ := p
      have h2 : (query_rag emb chatc metric question b top_k).2 =
          chatc [("system", system_msg),
                 ("user", "Data:\n" ++
                   String.intercalate "\n" (idxs.map (fun i => b.documents.getD i "")) ++
                   "\n\nQuestion: " ++ question)] 0 := by
        simp [query_rag, hq, hkq]
      rw [h2] at h
      refine ⟨qv, ds, idxs, rfl, hkq, h, ?_⟩
      simp [query_rag, hq, hkq]

/-- Witness for C4 on a one-document index with an always-answering chat
client. -/
theorem C4_witness :
    ∃ qv ds idxs, embZero "Q" = .ok qv ∧
      kneighbors mZero bOne.X qv 1 = .ok (ds, idxs) ∧
      chatOK [("system", system_msg),
              ("user", "Data:\n" ++
                String.intercalate "\n" (idxs.map (fun i => bOne.documents.getD i "")) ++
                "\n\nQuestion: " ++ "Q")] 0 = .ok "ANSWER" ∧
      (query_rag embZero chatOK mZero "Q" bOne 1).1 =
        [.embed "Q", .knn 1,
         .chat [("system", system_msg),
                ("user", "Data:\n" ++
                  String.intercalate "\n" (idxs.map (fun i => bOne.documents.getD i "")) ++
                  "\n\nQuestion: " ++ "Q")] 0] :=
  C4_query_rag_prompt embZero chatOK mZero "Q" bOne 1 "ANSWER" (by rfl)

/-- C5: when the embedding client succeeds on every document and the
document list is non-empty (on an empty list `nn.fit` raises and there is no
matrix), `build_nn_index` calls the client exactly once per document, in
document order, and stacks the vectors in that order: the matrix has one row
per document and row `i` is the embedding of document `i`. -/
theorem C5_build_index_order (emb : String → Except String (List ℚ))
    (documents : List String)
    (hne : documents ≠ [])
    (h : ∀ d ∈ documents, ∃ v, emb d = .ok v) :
    (build_nn_index emb documents).1 = documents.map ApiCall.embed ∧
    ∃ b, (build_nn_index emb documents).2 = .ok b ∧
      b.documents = documents ∧ b.X.length = documents.length ∧
      ∀ i, i < documents.length → emb (documents.getD i "") = .ok (b.X.getD i []) := by
  obtain ⟨h1, X, hX, hlen, hget⟩ := embedAll_ok emb documents h
  have h0 : ¬X.length = 0 := by
    rw [hlen]
    simpa using hne
  refine ⟨h1, ⟨5, X, documents⟩, ?_, rfl, hlen, hget⟩
  simp [build_nn_index, hX, h0]

/-- Witness for C5 on two documents and an always-succeeding embedding
client. -/
theorem C5_witness :
    (build_nn_index embZero ["da", "db"]).1 = (["da", "db"]).map ApiCall.embed ∧
    ∃ b, (build_nn_index embZero ["da", "db"]).2 = .ok b ∧
      b.documents = ["da", "db"] ∧
      b.X.length = (["da", "db"] : List String).length ∧
      ∀ i, i < (["da", "db"] : List String).length →
        embZero ((["da", "db"] : List String).getD i "") = .ok (b.X.getD i []) :=
  C5_build_index_order embZero ["da", "db"] (by decide) (fun _ _ => ⟨[0], rfl⟩)

/-- C6: a submission with an empty question string issues no query: no
embedding, neighbor, or chat call is made, the conversation history (indeed
the whole state) is unchanged, and no banner is shown. -/
theorem C6_empty_question_ignored (emb : String → Except String (List ℚ))
    (chatc : List (String × String) → ℚ → Except String String)
    (metric : List ℚ → List ℚ → ℚ) (st : AppState) (submit : Bool) :
    process_query emb chatc metric st submit "" = (st, [], none) := by
  simp [process_query]

/-- C7: a query during which the pipeline raises is surfaced as an inline
error answer appended after the user turn for that one query only; earlier
history, the `data_loaded` flag and the index bundle are unchanged, and a
subsequent query whose pipeline succeeds is answered normally. -/
theorem C7_query_failure_inline_only (emb : String → Except String (List ℚ))
    (chatc : List (String × String) → ℚ → Except String String)
    (metric : List ℚ → List ℚ → ℚ) (st : AppState) (b : IndexBundle)
    (input e : String)
    (hl : st.data_loaded = true) (hb : st.bundle = some b) (hne : input ≠ "")
    (hfail : (query_rag emb chatc metric input b 5).2 = .error e) :
    process_query emb chatc metric st true input =
      ({ st with history := st.history ++ [("user", input), ("bot", errHead ++ e)] },
       (query_rag emb chatc metric input b 5).1, none) ∧
    (∀ (emb2 : String → Except String (List ℚ))
       (chatc2 : List (String × String) → ℚ → Except String String)
       (input2 ans2 : String), input2 ≠ "" →
      (query_rag emb2 chatc2 metric input2 b 5).2 = .ok ans2 →
      process_query emb2 chatc2 metric
        { st with history := st.history ++ [("user", input), ("bot", errHead ++ e)] }
        true input2 =
        ({ st with history := (st.history ++ [("user", input), ("bot", errHead ++ e)]) ++
            [("user", input2), ("bot", ans2)] },
         (query_rag emb2 chatc2 metric input2 b 5).1, none)) := by
  refine ⟨process_query_err emb chatc metric st b input e hl hb hne hfail, ?_⟩
  intro emb2 chatc2 input2 ans2 hne2 hok
  exact process_query_ok emb2 chatc2 metric
    { st with history := st.history ++ [("user", input), ("bot", errHead ++ e)] }
    b input2 ans2 hl hb hne2 hok

/-- Witness for C7: a failing embedding call over the five-document bundle. -/
theorem C7_witness :
    process_query embFail chatOK mZero stEx true "Hi" =
      ({ stEx with history := stEx.history ++ [("user", "Hi"), ("bot", errHead ++ "boom")] },
       (query_rag embFail chatOK mZero "Hi" bFive 5).1, none) :=
  (C7_query_failure_inline_only embFail chatOK mZero stEx bFive "Hi" "boom"
    rfl rfl (by decide) rfl).1

/-- C8: if the dataset is unreadable or any single embedding call during the
index build fails, the whole build fails: the startup state has
`data_loaded = false` and no bundle, and every subsequent submission shows
the "data not loaded" error without any external call or history change. -/
theorem C8_build_failure_blocks_queries (read_excel : Except String DataFrame)
    (emb : String → Except String (List ℚ))
    (h : (∃ e, read_excel = .error e) ∨
         (∃ df, read_excel = .ok df ∧
           ∃ d ∈ prepare_documents df, ∃ e, emb d = .error e)) :
    (load_state read_excel emb).data_loaded = false ∧
    (load_state read_excel emb).bundle = none ∧
    ∀ (emb2 : String → Except String (List ℚ))
      (chatc2 : List (String × String) → ℚ → Except String String)
      (metric2 : List ℚ → List ℚ → ℚ) (submit : Bool) (input : String),
      process_query emb2 chatc2 metric2 (load_state read_excel emb) submit input =
        (load_state read_excel emb, [],
         if submit = true ∧ input ≠ "" then some dataNotLoadedMsg else none) := by
  have hload : load_and_index_data read_excel emb = (none, false, 0) := by
    rcases h with ⟨e, he⟩ | ⟨df, hdf, hfail⟩
    · simp [load_and_index_data, he]
    · obtain ⟨e2, he2⟩ := embedAll_err emb (prepare_documents df) hfail
      have hbuild : (build_nn_index emb (prepare_documents df)).2 = .error e2 := by
        simp [build_nn_index, he2]
      simp [load_and_index_data, hdf, hbuild]
  have h1 : (load_state read_excel emb).data_loaded = false := by
    simp [load_state, hload]
  refine ⟨h1, by simp [load_state, hload], ?_⟩
  intro emb2 chatc2 metric2 submit input
  exact process_query_notloaded emb2 chatc2 metric2 _ submit input h1

/-- Witness for C8: an unreadable dataset. -/
theorem C8_witness :
    (load_state (.error "file not found") embFail).data_loaded = false ∧
    (load_state (.error "file not found") embFail).bundle = none ∧
    ∀ (emb2 : String → Except String (List ℚ))
      (chatc2 : List (String × String) → ℚ → Except String String)
      (metric2 : List ℚ → List ℚ → ℚ) (submit : Bool) (input : String),
      process_query emb2 chatc2 metric2 (load_state (.error "file not found") embFail)
          submit input =
        (load_state (.error "file not found") embFail, [],
         if submit = true ∧ input ≠ "" then some dataNotLoadedMsg else none) :=
  C8_build_failure_blocks_queries (.error "file not found") embFail
    (Or.inl ⟨"file not found", rfl⟩)

/-- C9: on an index fitted over fewer than 5 documents, every submitted
non-empty question fails: the handler calls `query_rag` with its default
`top_k = 5`, the pipeline raises (at the embedding, or at the neighbor query
requesting 5 neighbors from fewer than 5 fitted samples), the inline error
answer is appended, and no chat call is ever made — no answer can be
produced. -/
theorem C9_small_index_never_answers (emb : String → Except String (List ℚ))
    (chatc : List (String × String) → ℚ → Except String String)
    (metric : List ℚ → List ℚ → ℚ) (st : AppState) (b : IndexBundle)
    (input : String)
    (hl : st.data_loaded = true) (hb : st.bundle = some b)
    (hN : b.X.length < 5) (hne : input ≠ "") :
    ∃ e, (query_rag emb chatc metric input b 5).2 = .error e ∧
      process_query emb chatc metric st true input =
        ({ st with history := st.history ++ [("user", input), ("bot", errHead ++ e)] },
         (query_rag emb chatc metric input b 5).1, none) ∧
      ∀ m t, ApiCall.chat m t ∉ (query_rag emb chatc metric input b 5).1 := by
  have hq : ∃ e, (query_rag emb chatc metric input b 5).2 = .error e ∧
      ∀ m t, ApiCall.chat m t ∉ (query_rag emb chatc metric input b 5).1 := by
    cases he : emb input with
    | error e => exact ⟨e, by simp [query_rag, he], by simp [query_rag, he]⟩
    | ok qv =>
      have hkn := kneighbors_too_many metric b.X qv 5 (by decide) hN
      exact ⟨"Expected n_neighbors <= n_samples_fit",
        by simp [query_rag, he, hkn], by simp [query_rag, he, hkn]⟩
  obtain ⟨e, h1, h2⟩ := hq
  exact ⟨e, h1, process_query_err emb chatc metric st b input e hl hb hne h1, h2⟩

/-- Witness for C9: two fitted documents, a working embedding client. -/
theorem C9_witness :
    ∃ e, (query_rag embZero chatOK mZero "Hi" bTwo 5).2 = .error e ∧
      process_query embZero chatOK mZero stTwo true "Hi" =
        ({ stTwo with history := stTwo.history ++ [("user", "Hi"), ("bot", errHead ++ e)] },
         (query_rag embZero chatOK mZero "Hi" bTwo 5).1, none) ∧
      ∀ m t, ApiCall.chat m t ∉ (query_rag embZero chatOK mZero "Hi" bTwo 5).1 :=
  C9_small_index_never_answers embZero chatOK mZero stTwo bTwo "Hi"
    rfl rfl (by decide) (by decide)

/-- C10: the conversation history keeps the alternating (user, bot) pair
shape: a submitted non-empty question while data is loaded appends exactly
one user entry and one bot entry (answer or inline error) and any other
submission leaves the history unchanged; reset replaces the history with the
empty list; the sidebar query count `len(history) / 2` grows by one exactly
when a question is processed. -/
theorem C10_history_alternates (emb : String → Except String (List ℚ))
    (chatc : List (String × String) → ℚ → Except String String)
    (metric : List ℚ → List ℚ → ℚ) (st : AppState) (submit : Bool)
    (input : String)
    (hwf : alternating st.history = true)
    (hrep : st.data_loaded = true → st.bundle ≠ none) :
    alternating (process_query emb chatc metric st submit input).1.history = true ∧
    (process_query emb chatc metric st submit input).1.history.length =
      st.history.length +
        (if submit = true ∧ input ≠ "" ∧ st.data_loaded = true then 2 else 0) ∧
    queries_metric (process_query emb chatc metric st submit input).1 =
      queries_metric st +
        (if submit = true ∧ input ≠ "" ∧ st.data_loaded = true then 1 else 0) ∧
    (new_session st).history = [] ∧ queries_metric (new_session st) = 0 := by
  have hns1 : (new_session st).history = [] := rfl
  have hns2 : queries_metric (new_session st) = 0 := by
    simp [queries_metric, new_session]
  by_cases h1 : submit = true ∧ input ≠ ""
  · obtain ⟨h1a, h1b⟩ := h1
    subst h1a
    by_cases h2 : st.data_loaded = true
    · cases hbo : st.bundle with
      | none => exact absurd hbo (hrep h2)
      | some b =>
        cases hq : (query_rag emb chatc metric input b 5).2 with
        | error e =>
          rw [process_query_err emb chatc metric st b input e h2 hbo h1b hq]
          refine ⟨?_, ?_, ?_, hns1, hns2⟩
          · simpa using alternating_append st.history input (errHead ++ e) hwf
          · simp [h1b, h2]
          · simp [queries_metric, h1b, h2]
            try omega
        | ok ans =>
          rw [process_query_ok emb chatc metric st b input ans h2 hbo h1b hq]
          refine ⟨?_, ?_, ?_, hns1, hns2⟩
          · simpa using alternating_append st.history input ans hwf
          · simp [h1b, h2]
          · simp [queries_metric, h1b, h2]
            try omega
    · have hf : st.data_loaded = false := by
        cases hdl : st.data_loaded with
        | false => rfl
        | true => exact absurd hdl h2
      have hcnot : ¬(true = true ∧ input ≠ "" ∧ st.data_loaded = true) :=
        fun hc => h2 hc.2.2
      rw [process_query_notloaded emb chatc metric st true input hf]
      refine ⟨hwf, ?_, ?_, hns1, hns2⟩
      · rw [if_neg hcnot]
        simp
      · rw [if_neg hcnot]
        simp
  · have heq : process_query emb chatc metric st submit input = (st, [], none) := by
      simp [process_query, h1]
    have hcnot : ¬(submit = true ∧ input ≠ "" ∧ st.data_loaded = true) :=
      fun hc => h1 ⟨hc.1, hc.2.1⟩
    rw [heq]
    refine ⟨hwf, ?_, ?_, hns1, hns2⟩
    · rw [if_neg hcnot]
      simp
    · rw [if_neg hcnot]
      simp

/-- Witness for C10: a processed question on the loaded two-document state. -/
theorem C10_witness :
    alternating (process_query embZero chatOK mZero stTwo true "Hi").1.history = true ∧
    (process_query embZero chatOK mZero stTwo true "Hi").1.history.length =
      stTwo.history.length +
        (if (true = true) ∧ "Hi" ≠ "" ∧ stTwo.data_loaded = true then 2 else 0) ∧
    queries_metric (process_query embZero chatOK mZero stTwo true "Hi").1 =
      queries_metric stTwo +
        (if (true = true) ∧ "Hi" ≠ "" ∧ stTwo.data_loaded = true then 1 else 0) ∧
    (new_session stTwo).history = [] ∧ queries_metric (new_session stTwo) = 0 :=
  C10_history_alternates embZero chatOK mZero stTwo true "Hi" (by decide)
    (fun _ => by simp [stTwo])
